import Mathlib

/-!
Verification development for the media-forge-desktop video generation
workflow (src/services/videoWorkflowService.ts, src/services/apiService.ts,
src/components/VideoWorkflow.tsx and the related drafts).

The repository contains two implementations of the scene/image/orchestration
logic: an earlier draft (src/unnamed/part_002) and a richer, defensive
version (the service embedded in src/components/ScriptGenerator.tsx).  Both
are embedded below: definitions suffixed `V1` come from the earlier draft,
the unsuffixed ones from the defensive version, which the specification
treats as authoritative.

Remote calls are modelled by explicit environments: each `fetch` an embedded
function performs is resolved against an environment field that records the
outcome of that request (a response with status and parsed body, or a network
rejection).  `JSON.parse` is modelled by an executable JSON parser over a
JSON value type; `localStorage`-backed key lookup is modelled by an explicit
key list; the zustand media store is modelled by explicit state passing.
-/

namespace MediaForge

/-- JSON values, the result type of the embedded `JSON.parse` model.
Numbers keep their source lexeme: none of the embedded code computes with
numeric values, it only passes them along. -/
inductive Json where
  | null
  | bool (b : Bool)
  | num (lexeme : String)
  | str (s : String)
  | arr (elems : List Json)
  | obj (fields : List (String × Json))
deriving Repr

/-- The opening-brace character, written via its code point. -/
def lbraceC : Char := Char.ofNat 123

/-- The closing-brace character, written via its code point. -/
def rbraceC : Char := Char.ofNat 125

/-- JSON whitespace. -/
def isWs (c : Char) : Bool := c == ' ' || c == '\t' || c == '\n' || c == '\r'

/-- Drop leading JSON whitespace. -/
def skipWs : List Char → List Char
  | [] => []
  | c :: rest => if isWs c then skipWs rest else c :: rest

/-- Hexadecimal digit value. -/
def hexVal (c : Char) : Option Nat :=
  if '0' ≤ c ∧ c ≤ '9' then some (c.toNat - '0'.toNat)
  else if 'a' ≤ c ∧ c ≤ 'f' then some (c.toNat - 'a'.toNat + 10)
  else if 'A' ≤ c ∧ c ≤ 'F' then some (c.toNat - 'A'.toNat + 10)
  else none

/-- Body of a JSON string literal, after the opening quote: returns the
decoded string and the input remaining after the closing quote.  The fuel
argument only serves structural termination; every step consumes at least
one input character, so `cs.length` fuel is always enough. -/
def parseStringBody : Nat → List Char → List Char → Option (String × List Char)
  | 0, _, _ => none
  | Nat.succ _, [], _ => none
  | Nat.succ fuel, c :: rest, acc =>
    if c == '"' then some (String.mk acc.reverse, rest)
    else if c == '\\' then
      match rest with
      | [] => none
      | e :: rest2 =>
        if e == '"' then parseStringBody fuel rest2 ('"' :: acc)
        else if e == '\\' then parseStringBody fuel rest2 ('\\' :: acc)
        else if e == '/' then parseStringBody fuel rest2 ('/' :: acc)
        else if e == 'b' then parseStringBody fuel rest2 (Char.ofNat 8 :: acc)
        else if e == 'f' then parseStringBody fuel rest2 (Char.ofNat 12 :: acc)
        else if e == 'n' then parseStringBody fuel rest2 ('\n' :: acc)
        else if e == 'r' then parseStringBody fuel rest2 ('\r' :: acc)
        else if e == 't' then parseStringBody fuel rest2 ('\t' :: acc)
        else if e == 'u' then
          match rest2 with
          | h1 :: h2 :: h3 :: h4 :: rest3 =>
            match hexVal h1, hexVal h2, hexVal h3, hexVal h4 with
            | some a, some b, some c2, some d =>
              parseStringBody fuel rest3 (Char.ofNat (((a * 16 + b) * 16 + c2) * 16 + d) :: acc)
            | _, _, _, _ => none
          | _ => none
        else none
    else parseStringBody fuel rest (c :: acc)

/-- Longest digit prefix. -/
def takeDigits : List Char → List Char × List Char
  | [] => ([], [])
  | c :: rest =>
    if c.isDigit then
      let (d, r) := takeDigits rest
      (c :: d, r)
    else ([], c :: rest)

/-- Integer part of a JSON number: `0`, or a nonzero digit followed by
digits (JSON forbids leading zeros). -/
def parseIntPart : List Char → Option (List Char × List Char)
  | [] => none
  | c :: rest =>
    if c == '0' then some ([c], rest)
    else if c.isDigit then
      let (d, r) := takeDigits rest
      some (c :: d, r)
    else none

/-- Optional fraction part `.digits`. -/
def parseFracPart (cs : List Char) : List Char × List Char :=
  match cs with
  | c :: rest =>
    if c == '.' then
      match takeDigits rest with
      | ([], _) => ([], cs)
      | (ds, r) => (c :: ds, r)
    else ([], cs)
  | [] => ([], cs)

/-- Optional exponent part `e[+-]digits`. -/
def parseExpPart (cs : List Char) : List Char × List Char :=
  match cs with
  | e :: rest =>
    if e == 'e' || e == 'E' then
      let (sgn, rest2) :=
        match rest with
        | s :: r2 => if s == '+' || s == '-' then ([s], r2) else (([] : List Char), rest)
        | [] => ([], rest)
      match takeDigits rest2 with
      | ([], _) => ([], cs)
      | (ds, r) => (e :: (sgn ++ ds), r)
    else ([], cs)
  | [] => ([], cs)

/-- JSON number lexeme. -/
def parseNumber (cs : List Char) : Option (String × List Char) :=
  let (sign, cs1) :=
    match cs with
    | c :: rest => if c == '-' then ([c], rest) else (([] : List Char), cs)
    | [] => ([], cs)
  match parseIntPart cs1 with
  | none => none
  | some (ip, cs2) =>
    let (fp, cs3) := parseFracPart cs2
    let (ep, cs4) := parseExpPart cs3
    some (String.mk (sign ++ ip ++ fp ++ ep), cs4)

/-- The literal words `true`, `false`, `null`. -/
def parseLiteralWord : List Char → Option (Json × List Char)
  | 't' :: 'r' :: 'u' :: 'e' :: rest => some (Json.bool true, rest)
  | 'f' :: 'a' :: 'l' :: 's' :: 'e' :: rest => some (Json.bool false, rest)
  | 'n' :: 'u' :: 'l' :: 'l' :: rest => some (Json.null, rest)
  | _ => none

mutual

/-- Recursive-descent JSON value parser (fuel-indexed; the top-level wrapper
supplies enough fuel, since every fuel step consumes at least one input
character). -/
def parseValue : Nat → List Char → Option (Json × List Char)
  | 0, _ => none
  | Nat.succ fuel, cs =>
    match skipWs cs with
    | [] => none
    | c :: rest =>
      if c == '"' then
        match parseStringBody (rest.length + 1) rest [] with
        | some (s, rest2) => some (Json.str s, rest2)
        | none => none
      else if c == '[' then
        match skipWs rest with
        | ']' :: rest2 => some (Json.arr [], rest2)
        | cs2 =>
          match parseValue fuel cs2 with
          | some (v, rest2) =>
            match parseArrayTail fuel rest2 [v] with
            | some (es, rest3) => some (Json.arr es, rest3)
            | none => none
          | none => none
      else if c == lbraceC then
        match skipWs rest with
        | d :: rest2 =>
          if d == rbraceC then some (Json.obj [], rest2)
          else
            match parseMember fuel (d :: rest2) with
            | some (kv, rest3) =>
              match parseObjTail fuel rest3 [kv] with
              | some (fs, rest4) => some (Json.obj fs, rest4)
              | none => none
            | none => none
        | [] => none
      else
        match parseLiteralWord (c :: rest) with
        | some (v, rest2) => some (v, rest2)
        | none =>
          match parseNumber (c :: rest) with
          | some (lex, rest2) => some (Json.num lex, rest2)
          | none => none

/-- Remaining elements of a JSON array, after the first element. -/
def parseArrayTail : Nat → List Char → List Json → Option (List Json × List Char)
  | 0, _, _ => none
  | Nat.succ fuel, cs, acc =>
    match skipWs cs with
    | ']' :: rest => some (acc.reverse, rest)
    | ',' :: rest =>
      match parseValue fuel rest with
      | some (v, rest2) => parseArrayTail fuel rest2 (v :: acc)
      | none => none
    | _ => none

/-- One `"key": value` member of a JSON object. -/
def parseMember : Nat → List Char → Option ((String × Json) × List Char)
  | 0, _ => none
  | Nat.succ fuel, cs =>
    match skipWs cs with
    | '"' :: rest =>
      match parseStringBody (rest.length + 1) rest [] with
      | some (k, rest2) =>
        match skipWs rest2 with
        | ':' :: rest3 =>
          match parseValue fuel rest3 with
          | some (v, rest4) => some ((k, v), rest4)
          | none => none
        | _ => none
      | none => none
    | _ => none

/-- Remaining members of a JSON object, after the first member. -/
def parseObjTail : Nat → List Char → List (String × Json) → Option (List (String × Json) × List Char)
  | 0, _, _ => none
  | Nat.succ fuel, cs, acc =>
    match skipWs cs with
    | c :: rest =>
      if c == rbraceC then some (acc.reverse, rest)
      else if c == ',' then
        match parseMember fuel rest with
        | some (kv, rest2) => parseObjTail fuel rest2 (kv :: acc)
        | none => none
      else none
    | [] => none

end

/-- Model of `JSON.parse`: parse one JSON value and require that only
whitespace remains. -/
def jsonParse (s : String) : Option Json :=
  let cs := s.toList
  match parseValue (cs.length + 1) cs with
  | some (v, rest) => if skipWs rest = [] then some v else none
  | none => none

/-- Escaping used by the `JSON.stringify` model for string values. -/
def escapeStringChars : List Char → List Char
  | [] => []
  | c :: rest =>
    if c == '"' then '\\' :: '"' :: escapeStringChars rest
    else if c == '\\' then '\\' :: '\\' :: escapeStringChars rest
    else if c == '\n' then '\\' :: 'n' :: escapeStringChars rest
    else if c == '\r' then '\\' :: 'r' :: escapeStringChars rest
    else if c == '\t' then '\\' :: 't' :: escapeStringChars rest
    else c :: escapeStringChars rest

mutual

/-- Nesting depth of a JSON value, used as fuel for the printers below. -/
def Json.depth : Json → Nat
  | Json.null => 1
  | Json.bool _ => 1
  | Json.num _ => 1
  | Json.str _ => 1
  | Json.arr es => Json.depthList es + 1
  | Json.obj fs => Json.depthFields fs + 1

/-- Maximal depth of a list of JSON values. -/
def Json.depthList : List Json → Nat
  | [] => 0
  | j :: rest => max (Json.depth j) (Json.depthList rest)

/-- Maximal depth of the values of a field list. -/
def Json.depthFields : List (String × Json) → Nat
  | [] => 0
  | f :: rest => max (Json.depth f.2) (Json.depthFields rest)

end

/-- Fuel-indexed body of the `JSON.stringify` model; the wrapper supplies
`Json.depth j` fuel, which bounds the nesting depth. -/
def jsonStringifyF : Nat → Json → String
  | 0, _ => ""
  | Nat.succ fuel, j =>
    match j with
    | Json.null => "null"
    | Json.bool b => if b then "true" else "false"
    | Json.num l => l
    | Json.str s => "\"" ++ String.mk (escapeStringChars s.toList) ++ "\""
    | Json.arr es => "[" ++ String.intercalate "," (es.map (jsonStringifyF fuel)) ++ "]"
    | Json.obj fs =>
      "\x7b" ++
        String.intercalate ","
          (fs.map (fun p => "\"" ++ String.mk (escapeStringChars p.1.toList) ++ "\":" ++ jsonStringifyF fuel p.2)) ++
        "\x7d"

/-- Model of `JSON.stringify` (only used to build error-message text). -/
def jsonStringify (j : Json) : String := jsonStringifyF (Json.depth j) j

/-- Fuel-indexed body of the JavaScript `String(...)` coercion model. -/
def jsToStringF : Nat → Json → String
  | 0, _ => ""
  | Nat.succ fuel, j =>
    match j with
    | Json.null => "null"
    | Json.bool b => if b then "true" else "false"
    | Json.num l => l
    | Json.str s => s
    | Json.arr es =>
      String.intercalate ","
        (es.map (fun e =>
          match e with
          | Json.null => ""
          | _ => jsToStringF fuel e))
    | Json.obj _ => "[object Object]"

/-- Model of the JavaScript `String(...)` coercion, used where the source
interpolates a value of uncertain shape into a string. -/
def jsToString (j : Json) : String := jsToStringF (Json.depth j) j

/-- JavaScript truthiness of a JSON value.  For numbers the model treats a
lexeme with a nonzero digit as truthy, which agrees with JavaScript on every
number without an exponent. -/
def jsTruthy : Json → Bool
  | Json.null => false
  | Json.bool b => b
  | Json.num l => l.toList.any (fun c => c.isDigit && c != '0')
  | Json.str s => s != ""
  | Json.arr _ => true
  | Json.obj _ => true

/-- Property access `j.k` on a parsed JSON value: `none` models
`undefined` (also produced when `j` is not an object, matching the
optional-chaining use sites). -/
def jsonField (j : Json) (k : String) : Option Json :=
  match j with
  | Json.obj fs => (fs.find? (fun p => p.1 == k)).map (fun p => p.2)
  | _ => none

/-- Index access `j[i]` on a parsed JSON value. -/
def jsonIndex (j : Json) (i : Nat) : Option Json :=
  match j with
  | Json.arr es => es.get? i
  | _ => none

/-- The truthiness test and optional chain
`data.candidates && data.candidates[0]?.content?.parts?.[0]?.text` shared by
the script and scene clients: `some t` exactly when the chain produces a
truthy string (the source then uses `t` as the response text). -/
def candidateText (data : Json) : Option String :=
  match jsonField data "candidates" with
  | none => none
  | some cands =>
    if jsTruthy cands then
      match jsonIndex cands 0 with
      | none => none
      | some c0 =>
        match jsonField c0 "content" with
        | none => none
        | some content =>
          match jsonField content "parts" with
          | none => none
          | some parts =>
            match jsonIndex parts 0 with
            | none => none
            | some p0 =>
              match jsonField p0 "text" with
              | some (Json.str t) => if t == "" then none else some t
              | _ => none
    else none

/-- `data.error?.message || 'Unknown error'` from the defensive scene
client. -/
def geminiErrMsg (data : Json) : String :=
  match jsonField data "error" with
  | some e =>
    match jsonField e "message" with
    | some (Json.str m) => if m == "" then "Unknown error" else m
    | _ => "Unknown error"
  | none => "Unknown error"

/-- `data.error || data`, the value both clients stringify into their
shape-mismatch error message. -/
def jsErrOrData (data : Json) : Json :=
  match jsonField data "error" with
  | some e => if jsTruthy e then e else data
  | none => data

/-! ### The `/\[[\s\S]*\]/` match

`responseText.match(/\[[\s\S]*\]/)` matches from the first `[` that is
followed by some later `]` through the *last* `]` of the entire text (the
quantifier is greedy).  Equivalently: take the last `]` of the text, then the
first `[` strictly before it; the match is the span between them,
inclusive. -/

/-- Index of the first occurrence of `c`. -/
def firstIndexOf (cs : List Char) (c : Char) : Option Nat :=
  match cs with
  | [] => none
  | x :: rest => if x == c then some 0 else (firstIndexOf rest c).map (fun i => i + 1)

/-- Index of the last occurrence of `c`. -/
def lastIndexOf (cs : List Char) (c : Char) : Option Nat :=
  match firstIndexOf cs.reverse c with
  | none => none
  | some r => some (cs.length - 1 - r)

/-- The span matched by `/\[[\s\S]*\]/`, on character lists. -/
def extractArraySpanL (cs : List Char) : Option (List Char) :=
  match lastIndexOf cs ']' with
  | none => none
  | some j =>
    match firstIndexOf (cs.take j) '[' with
    | none => none
    | some i => some ((cs.drop i).take (j - i + 1))

/-- The span matched by `/\[[\s\S]*\]/`, on strings: `jsonMatch[0]` when the
match succeeds, `none` when `match` returns `null`. -/
def extractArraySpan (s : String) : Option String :=
  (extractArraySpanL s.toList).map (fun l => String.mk l)

/-! ### Credentials and HTTP outcomes -/

/-- One entry of the JSON array stored under `mediaforge_api_keys`. -/
structure ApiKeyEntry where
  name : String
  key : String
deriving Repr, DecidableEq

/-- The `localStorage`-backed credential lookup
`JSON.parse(localStorage.getItem("mediaforge_api_keys") || "[]").find(k => k.name === name)?.key`.
A missing entry yields `""`, merging the `undefined` and empty-string cases:
every use site only tests falsiness (`if (!apiKey)`). -/
def getApiKey (keys : List ApiKeyEntry) (name : String) : String :=
  match keys.find? (fun k => k.name == name) with
  | some k => k.key
  | none => ""

/-- A blob is modelled as its byte content. -/
abbrev Blob := String

/-- Model of `URL.createObjectURL`. -/
def createObjectURL (b : Blob) : String := "blob:" ++ b

/-- `response.ok`: status in the 200–299 range. -/
def statusOk (status : Nat) : Bool := 200 ≤ status && status ≤ 299

/-- Outcome of a `fetch` whose body the source reads with `.json()`:
either a response (status plus parsed body) or a rejected promise
(network failure). -/
inductive FetchJsonOutcome where
  | resp (status : Nat) (body : Json)
  | networkError
deriving Repr

/-- Outcome of a `fetch` whose body the source reads with `.blob()`. -/
inductive HttpBlobOutcome where
  | resp (status : Nat) (body : Blob)
  | networkError
deriving Repr, DecidableEq

/-- The message a rejected `fetch` surfaces. -/
def fetchRejectMsg : String := "Failed to fetch"

/-! ### Scene decomposition client -/

/-- A scene descriptor as typed in the source (`ScenePrompt`). -/
structure ScenePrompt where
  scene : String
  description : String
deriving Repr, DecidableEq

/-- A single-quote character for building request text. -/
def squote : String := String.singleton (Char.ofNat 39)

/-- The part of the request text that follows the interpolated prompt. -/
def scenePromptRequestSuffix : String :=
  "\", generate 3 distinct scene descriptions for a short video. \n  Format the output as a JSON array with objects that have " ++
    squote ++ "scene" ++ squote ++ " (one-line title) and " ++ squote ++ "description" ++ squote ++
    " (detailed visual description) fields. \n  Make sure the descriptions are detailed enough for image generation."

/-- The request text `scenePromptRequest` built by `generateScenePrompts`
(both versions build the same text). -/
def scenePromptRequest (mainPrompt : String) : String :=
  ("Based on this video idea: \"" ++ mainPrompt) ++ scenePromptRequestSuffix

/-- The `try \{ ... \}` block of `generateScenePrompts` that extracts and
parses the array span of the response text.  The inner
`throw new Error("Could not extract JSON from response")` is caught by the
same `catch`, so every failure surfaces as the one parse-error message. -/
def parseScenePromptsText (responseText : String) : Except String (List Json) :=
  match extractArraySpan responseText with
  | some span =>
    match jsonParse span with
    | some (Json.arr elems) => Except.ok elems
    | some _ => Except.error "Failed to parse scene prompts from Gemini response"
    | none => Except.error "Failed to parse scene prompts from Gemini response"
  | none => Except.error "Failed to parse scene prompts from Gemini response"

/-- `generateScenePrompts` — defensive version (ScriptGenerator.tsx).  The
function returns the parse result cast to `ScenePrompt[]` without
validation, so the embedding returns the raw parsed elements. -/
def generateScenePrompts (keys : List ApiKeyEntry) (resp : FetchJsonOutcome) :
    Except String (List Json) :=
  if getApiKey keys "gemini" == "" then
    Except.error "Gemini API key not found. Please add your API key in the Settings tab."
  else
    match resp with
    | FetchJsonOutcome.networkError => Except.error fetchRejectMsg
    | FetchJsonOutcome.resp status body =>
      if !(statusOk status) then
        Except.error ("Failed to generate scene prompts: " ++ geminiErrMsg body)
      else
        match candidateText body with
        | some responseText => parseScenePromptsText responseText
        | none =>
          Except.error ("Failed to generate scene prompts: " ++ jsonStringify (jsErrOrData body))

/-- `generateScenePrompts` — earlier draft (part_002): no `response.ok`
check and a shorter key-missing message; the parsing logic is identical. -/
def generateScenePromptsV1 (keys : List ApiKeyEntry) (resp : FetchJsonOutcome) :
    Except String (List Json) :=
  if getApiKey keys "gemini" == "" then
    Except.error "Gemini API key not found"
  else
    match resp with
    | FetchJsonOutcome.networkError => Except.error fetchRejectMsg
    | FetchJsonOutcome.resp _ body =>
      match candidateText body with
      | some responseText => parseScenePromptsText responseText
      | none =>
        Except.error ("Failed to generate scene prompts: " ++ jsonStringify (jsErrOrData body))

/-! ### Image synthesis client and batch image generator -/

/-- The fixed fallback ladder of backend models, in order of preference. -/
def models : List String :=
  ["stabilityai/stable-diffusion-xl-base-1.0",
   "runwayml/stable-diffusion-v1-5",
   "prompthero/openjourney"]

/-- Environment of the image provider: the outcome of the `HEAD` probe
request issued before the batch, and the outcome of the `POST` for each
(description, model) pair.  Each pair is requested at most once per scene,
so a function of the pair is a faithful record of the run. -/
structure ImageEnv where
  probe : HttpBlobOutcome
  attempt : String → String → HttpBlobOutcome

/-- `generateImage` — defensive version (ScriptGenerator.tsx): re-checks the
credential, distinguishes 401/403, and includes the HTTP status in the
generic failure message. -/
def generateImage (keys : List ApiKeyEntry) (env : ImageEnv) (prompt model : String) :
    Except String Blob :=
  if getApiKey keys "huggingface" == "" then
    Except.error "Hugging Face API key not found. Please add your API key in the Settings tab."
  else
    match env.attempt prompt model with
    | HttpBlobOutcome.networkError => Except.error fetchRejectMsg
    | HttpBlobOutcome.resp status body =>
      if statusOk status then Except.ok body
      else if status == 401 || status == 403 then
        Except.error "Failed to generate image: Invalid or unauthorized Hugging Face API key"
      else
        Except.error ("Failed to generate image with model " ++ model ++ " (HTTP " ++ toString status ++ ")")

/-- `generateImage` — earlier draft (part_002). -/
def generateImageV1 (keys : List ApiKeyEntry) (env : ImageEnv) (prompt model : String) :
    Except String Blob :=
  if getApiKey keys "huggingface" == "" then
    Except.error "Hugging Face API key not found"
  else
    match env.attempt prompt model with
    | HttpBlobOutcome.networkError => Except.error fetchRejectMsg
    | HttpBlobOutcome.resp status body =>
      if statusOk status then Except.ok body
      else Except.error ("Failed to generate image with model " ++ model)

/-- The inner `for (const model of models)` ladder of `processBatchImages`:
try each model until one succeeds (`success = true; break`), catching each
failure.  Returns the list of attempted (description, model) pairs and the
object URL of the first success, if any. -/
def tryModelsT (gen : String → String → Except String Blob) (desc : String) :
    List String → List (String × String) × Option String
  | [] => ([], none)
  | m :: rest =>
    match gen desc m with
    | Except.ok blob => ([(desc, m)], some (createObjectURL blob))
    | Except.error _ =>
      let (tr, r) := tryModelsT gen desc rest
      ((desc, m) :: tr, r)

/-- The outer `for (const scene of scenePrompts)` loop of
`processBatchImages`: one URL is pushed per scene; if a scene exhausts the
ladder the whole loop throws, so URLs already pushed are discarded with the
frame.  `errSuffix` is the tail of the thrown message (the defensive version
appends a hint, the draft does not). -/
def batchLoopT (gen : String → String → Except String Blob) (errSuffix : String) :
    List ScenePrompt → List (String × String) × Except String (List String)
  | [] => ([], Except.ok [])
  | s :: rest =>
    match tryModelsT gen s.description models with
    | (tr, some url) =>
      let (tr2, res) := batchLoopT gen errSuffix rest
      (tr ++ tr2, res.map (fun us => url :: us))
    | (tr, none) =>
      (tr, Except.error ("Failed to generate image for scene: " ++ s.scene ++ errSuffix))

/-- The observable run of `processBatchImages`: how many probe (`HEAD`)
requests were issued, which (description, model) generation attempts were
made, and the returned value or thrown error. -/
structure BatchRun where
  probes : Nat
  attempts : List (String × String)
  result : Except String (List String)
deriving Repr

/-- `processBatchImages` — defensive version (ScriptGenerator.tsx).  The
credential is looked up first (`throw` when falsy, before any request);
then a single `HEAD` probe is issued against `models[0]`.  A 401/403 probe
status throws inside the `try`, so the surrounding `catch` replaces it (and
any probe rejection) with the one validation-failure message; only then does
the per-scene ladder start. -/
def processBatchImagesRun (keys : List ApiKeyEntry) (env : ImageEnv)
    (scenePrompts : List ScenePrompt) : BatchRun :=
  if getApiKey keys "huggingface" == "" then
    { probes := 0, attempts := [],
      result := Except.error "Hugging Face API key not found. Please add your API key in the Settings tab." }
  else
    match env.probe with
    | HttpBlobOutcome.networkError =>
      { probes := 1, attempts := [],
        result := Except.error "Failed to validate Hugging Face API key. Please check your internet connection and API key." }
    | HttpBlobOutcome.resp status _ =>
      if status == 401 || status == 403 then
        { probes := 1, attempts := [],
          result := Except.error "Failed to validate Hugging Face API key. Please check your internet connection and API key." }
      else
        let (tr, res) := batchLoopT (generateImage keys env) ". Please check your Hugging Face API key." scenePrompts
        { probes := 1, attempts := tr, result := res }

/-- The value returned (or error thrown) by the defensive
`processBatchImages`. -/
def processBatchImages (keys : List ApiKeyEntry) (env : ImageEnv)
    (scenePrompts : List ScenePrompt) : Except String (List String) :=
  (processBatchImagesRun keys env scenePrompts).result

/-- `processBatchImages` — earlier draft (part_002): no credential check and
no probe before the loop (the key check lives in `generateImageV1`). -/
def processBatchImagesV1 (keys : List ApiKeyEntry) (env : ImageEnv)
    (scenePrompts : List ScenePrompt) : Except String (List String) :=
  (batchLoopT (generateImageV1 keys env) "" scenePrompts).2

/-! ### Script synthesis client (apiService.ts, part_003) -/

/-- `generateScript`: key check, one POST, then the `data.candidates`
chain; on shape mismatch it throws with the stringified `data.error || data`.
It never consults `response.ok`. -/
def generateScript (keys : List ApiKeyEntry) (resp : FetchJsonOutcome) : Except String String :=
  if getApiKey keys "gemini" == "" then
    Except.error "Gemini API key not found"
  else
    match resp with
    | FetchJsonOutcome.networkError => Except.error fetchRejectMsg
    | FetchJsonOutcome.resp _ body =>
      match candidateText body with
      | some t => Except.ok t
      | none => Except.error ("Failed to generate script: " ++ jsonStringify (jsErrOrData body))

/-! ### Media store (store/mediaStore.ts) -/

/-- One generated file recorded in the store (`id`/`createdAt`, which the
source fills from the clock, are not modelled). -/
structure MediaFile where
  name : String
  ftype : String
  url : String
  content : Option String
deriving Repr, DecidableEq

/-- The zustand media store state. -/
structure MediaStore where
  currentScript : Option String
  currentAudioUrl : Option String
  currentImageUrl : Option String
  currentVideoUrl : Option String
  generatedFiles : List MediaFile
deriving Repr, DecidableEq

/-- The store's initial state. -/
def MediaStore.initial : MediaStore :=
  { currentScript := none, currentAudioUrl := none, currentImageUrl := none,
    currentVideoUrl := none, generatedFiles := [] }

def setCurrentScript (st : MediaStore) (s : String) : MediaStore :=
  { st with currentScript := some s }

def setCurrentAudioUrl (st : MediaStore) (u : String) : MediaStore :=
  { st with currentAudioUrl := some u }

def setCurrentImageUrl (st : MediaStore) (u : String) : MediaStore :=
  { st with currentImageUrl := some u }

/-- `addGeneratedFile` prepends the new file. -/
def addGeneratedFile (st : MediaStore) (f : MediaFile) : MediaStore :=
  { st with generatedFiles := f :: st.generatedFiles }

/-! ### Workflow orchestrator -/

/-- The `VideoGenerationResult` aggregate. -/
structure VideoGenerationResult where
  script : String
  scenePrompts : List ScenePrompt
  imageUrls : List String
  audioUrl : Option String
  videoUrl : Option String
deriving Repr, DecidableEq

/-- String field of a parsed JSON object as interpolated by the source:
a missing field is `undefined` and interpolates as `"undefined"`; any other
shape goes through the `String(...)` coercion. -/
def jsStrField (j : Json) (k : String) : String :=
  match jsonField j k with
  | some v => jsToString v
  | none => "undefined"

/-- The untyped-to-typed cast the source performs when it passes the parsed
scene array (typed `ScenePrompt[]`) to the image loop, which reads
`scene.scene` and `scene.description`. -/
def toScenePrompt (j : Json) : ScenePrompt :=
  { scene := jsStrField j "scene", description := jsStrField j "description" }

/-- `voices.voices && voices.voices.length > 0`: the list the orchestrator
draws the default voice from (empty when the field is missing or not an
array). -/
def voicesList (body : Json) : List Json :=
  match jsonField body "voices" with
  | some (Json.arr vs) => vs
  | _ => []

/-- Environment of one orchestrator run: the credential store, the
`toLocaleDateString()` text used in generated-file names, and the outcome of
each remote request the run performs. -/
structure WorkflowEnv where
  keys : List ApiKeyEntry
  dateString : String
  scriptResp : FetchJsonOutcome
  sceneResp : FetchJsonOutcome
  image : ImageEnv
  voicesResp : FetchJsonOutcome
  audioResp : HttpBlobOutcome

/-- The store updates after the image stage succeeds: one generated file per
image (`Scene ${index + 1} Image`), then the first image becomes the current
preview image. -/
def recordImages (st : MediaStore) (imageUrls : List String) : MediaStore :=
  let rec addFrom (st : MediaStore) (idx : Nat) : List String → MediaStore
    | [] => st
    | u :: rest =>
      addFrom (addGeneratedFile st
        { name := "Scene " ++ toString (idx + 1) ++ " Image", ftype := "image", url := u, content := none })
        (idx + 1) rest
  let st2 := addFrom st 0 imageUrls
  match imageUrls with
  | [] => st2
  | u :: _ => setCurrentImageUrl st2 u

/-- The audio stage of the defensive orchestrator (the body of its `try`):
key check, voice listing with `response.ok`/401 handling, first-voice
selection, synthesis with `response.ok`/401 handling, then store updates.
`Except.ok` carries the `audioUrl` value (`none` when the voices list is
empty and synthesis is skipped); `Except.error` is the caught-and-rethrown
error. -/
def audioStage (env : WorkflowEnv) (_script : String) (st : MediaStore) :
    MediaStore × Except String (Option String) :=
  if getApiKey env.keys "elevenlabs" == "" then
    (st, Except.error "ElevenLabs API key not found. Please add your API key in the Settings tab.")
  else
    match env.voicesResp with
    | FetchJsonOutcome.networkError => (st, Except.error fetchRejectMsg)
    | FetchJsonOutcome.resp status body =>
      if !(statusOk status) then
        if status == 401 then
          (st, Except.error "Invalid ElevenLabs API key. Please check your key in the Settings tab.")
        else
          (st, Except.error ("ElevenLabs API error (HTTP " ++ toString status ++ ")"))
      else
        match voicesList body with
        | [] => (st, Except.ok none)
        | v0 :: _ =>
          let _defaultVoice := jsStrField v0 "voice_id"
          match env.audioResp with
          | HttpBlobOutcome.networkError => (st, Except.error fetchRejectMsg)
          | HttpBlobOutcome.resp astatus ablob =>
            if !(statusOk astatus) then
              if astatus == 401 then
                (st, Except.error "Invalid ElevenLabs API key for audio generation.")
              else
                (st, Except.error ("Failed to generate audio (HTTP " ++ toString astatus ++ ")"))
            else
              let audioUrl := createObjectURL ablob
              let st2 := addGeneratedFile (setCurrentAudioUrl st audioUrl)
                { name := "Audio " ++ env.dateString, ftype := "audio", url := audioUrl, content := none }
              (st2, Except.ok (some audioUrl))

/-- `generateVideoContent` — defensive version (ScriptGenerator.tsx,
lines 362–496).  Every stage, the audio stage included, wraps its work in
`try/catch` that logs and *rethrows*, so any stage error is the function's
outcome; the store keeps whatever was recorded before the failure. -/
def generateVideoContent (env : WorkflowEnv) (st0 : MediaStore) :
    MediaStore × Except String VideoGenerationResult :=
  match generateScript env.keys env.scriptResp with
  | Except.error e => (st0, Except.error e)
  | Except.ok script =>
    let st1 := addGeneratedFile (setCurrentScript st0 script)
      { name := "Script " ++ env.dateString, ftype := "script", url := "#", content := some script }
    match generateScenePrompts env.keys env.sceneResp with
    | Except.error e => (st1, Except.error e)
    | Except.ok elems =>
      let scenePrompts := elems.map toScenePrompt
      match processBatchImages env.keys env.image scenePrompts with
      | Except.error e => (st1, Except.error e)
      | Except.ok imageUrls =>
        let st2 := recordImages st1 imageUrls
        match audioStage env script st2 with
        | (st3, Except.error e) => (st3, Except.error e)
        | (st3, Except.ok audioUrl) =>
          (st3, Except.ok
            { script := script, scenePrompts := scenePrompts, imageUrls := imageUrls,
              audioUrl := audioUrl, videoUrl := none })

/-- The audio stage of the draft orchestrator (part_002, lines 162–205): no
key check, no `response.ok` checks (a non-2xx voices response simply has no
`voices` array to offer; a non-2xx synthesis response still yields a blob),
and the `catch` only logs — it never rethrows, so the stage is total and a
failure leaves `audioUrl` null. -/
def audioStageV1 (env : WorkflowEnv) (st : MediaStore) : MediaStore × Option String :=
  match env.voicesResp with
  | FetchJsonOutcome.networkError => (st, none)
  | FetchJsonOutcome.resp _ body =>
    match voicesList body with
    | [] => (st, none)
    | v0 :: _ =>
      let _defaultVoice := jsStrField v0 "voice_id"
      match env.audioResp with
      | HttpBlobOutcome.networkError => (st, none)
      | HttpBlobOutcome.resp _ ablob =>
        let audioUrl := createObjectURL ablob
        let st2 := addGeneratedFile (setCurrentAudioUrl st audioUrl)
          { name := "Audio " ++ env.dateString, ftype := "audio", url := audioUrl, content := none }
        (st2, some audioUrl)

/-- `generateVideoContent` — earlier draft (part_002, lines 131–217).
Script, scene and image errors propagate uncaught; an audio failure is
caught and swallowed, and the accumulated result is returned with
`audioUrl` null. -/
def generateVideoContentV1 (env : WorkflowEnv) (st0 : MediaStore) :
    MediaStore × Except String VideoGenerationResult :=
  match generateScript env.keys env.scriptResp with
  | Except.error e => (st0, Except.error e)
  | Except.ok script =>
    let st1 := addGeneratedFile (setCurrentScript st0 script)
      { name := "Script " ++ env.dateString, ftype := "script", url := "#", content := some script }
    match generateScenePromptsV1 env.keys env.sceneResp with
    | Except.error e => (st1, Except.error e)
    | Except.ok elems =>
      let scenePrompts := elems.map toScenePrompt
      match processBatchImagesV1 env.keys env.image scenePrompts with
      | Except.error e => (st1, Except.error e)
      | Except.ok imageUrls =>
        let st2 := recordImages st1 imageUrls
        let (st3, audioUrl) := audioStageV1 env st2
        (st3, Except.ok
          { script := script, scenePrompts := scenePrompts, imageUrls := imageUrls,
            audioUrl := audioUrl, videoUrl := none })

/-! ### Bundle exporter (VideoWorkflow.tsx, handleDownloadAll) -/

/-- Content of one archive entry. -/
inductive ZipEntry where
  | text (s : String)
  | blob (b : Blob)
deriving Repr, DecidableEq

/-- The blocks of `scene-descriptions.txt`:
`Scene ${index + 1}: ${scene.scene}\n${scene.description}`, joined below
with blank lines, in original order. -/
def sceneBlocks (idx : Nat) : List ScenePrompt → List String
  | [] => []
  | s :: rest =>
    ("Scene " ++ toString (idx + 1) ++ ": " ++ s.scene ++ "\n" ++ s.description)
      :: sceneBlocks (idx + 1) rest

/-- The full text of `scene-descriptions.txt`. -/
def scenesText (scenePrompts : List ScenePrompt) : String :=
  String.intercalate "\n\n" (sceneBlocks 0 scenePrompts)

/-- The image entries: one `scene-${index + 1}.png` per image whose fetch
succeeds; a failed fetch is caught, logged and skipped. -/
def imageEntriesFrom (fetchBlob : String → Option Blob) (idx : Nat) :
    List String → List (String × ZipEntry)
  | [] => []
  | u :: rest =>
    match fetchBlob u with
    | some b =>
      ("scene-" ++ toString (idx + 1) ++ ".png", ZipEntry.blob b)
        :: imageEntriesFrom fetchBlob (idx + 1) rest
    | none => imageEntriesFrom fetchBlob (idx + 1) rest

/-- `handleDownloadAll`: the entries of the `media-forge-content` folder of
the produced archive, in the order the source adds them.  `fetchBlob`
records the outcome of fetching each object URL (`none` = the fetch or
`.blob()` step failed and the asset is skipped). -/
def handleDownloadAll (r : VideoGenerationResult) (fetchBlob : String → Option Blob) :
    List (String × ZipEntry) :=
  (if r.script != "" then [("script.txt", ZipEntry.text r.script)] else []) ++
  (if r.scenePrompts.length > 0 then
    [("scene-descriptions.txt", ZipEntry.text (scenesText r.scenePrompts))]
   else []) ++
  imageEntriesFrom fetchBlob 0 r.imageUrls ++
  (match r.audioUrl with
   | some url =>
     match fetchBlob url with
     | some b => [("audio.mp3", ZipEntry.blob b)]
     | none => []
   | none => [])

/-! ### Concrete environments used by the closed theorems and witnesses -/

/-- A credential store with all three provider keys present. -/
def demoKeys : List ApiKeyEntry :=
  [⟨"gemini", "g1"⟩, ⟨"elevenlabs", "e1"⟩, ⟨"huggingface", "h1"⟩]

/-- A well-shaped Gemini response body whose candidate text is `t`. -/
def geminiTextBody (t : String) : Json :=
  Json.obj [("candidates", Json.arr [Json.obj [("content",
    Json.obj [("parts", Json.arr [Json.obj [("text", Json.str t)]])])]])]

/-- A scene response text: prose, then an embedded two-descriptor JSON
array. -/
def demoSceneText : String :=
  "Sure! Here is the JSON:\n[\x7b\"scene\":\"s1\",\"description\":\"d1\"\x7d,\x7b\"scene\":\"s2\",\"description\":\"d2\"\x7d]"

/-- The descriptors embedded in `demoSceneText`. -/
def demoScenePrompts : List ScenePrompt := [⟨"s1", "d1"⟩, ⟨"s2", "d2"⟩]

/-- A voices listing with one voice. -/
def demoVoicesBody : Json :=
  Json.obj [("voices", Json.arr [Json.obj [("voice_id", Json.str "v1")]])]

/-- An environment in which every stage succeeds. -/
def demoEnv : WorkflowEnv :=
  { keys := demoKeys, dateString := "1/1/2025",
    scriptResp := FetchJsonOutcome.resp 200 (geminiTextBody "the script"),
    sceneResp := FetchJsonOutcome.resp 200 (geminiTextBody demoSceneText),
    image := { probe := HttpBlobOutcome.resp 200 "",
               attempt := fun d m => HttpBlobOutcome.resp 200 ("img-" ++ d ++ "-" ++ m) },
    voicesResp := FetchJsonOutcome.resp 200 demoVoicesBody,
    audioResp := HttpBlobOutcome.resp 200 "audio-bytes" }

/-- The image URLs `demoEnv` produces (first ladder model succeeds for each
scene). -/
def demoImageUrls : List String :=
  ["blob:img-d1-stabilityai/stable-diffusion-xl-base-1.0",
   "blob:img-d2-stabilityai/stable-diffusion-xl-base-1.0"]

/-- `demoEnv` with the voice-listing fetch rejecting: the audio stage fails
after script, scenes and images have all succeeded. -/
def demoEnvAudioFail : WorkflowEnv :=
  { demoEnv with voicesResp := FetchJsonOutcome.networkError }

/-- `demoEnv` with a successful voice listing that contains no voices. -/
def demoEnvNoVoices : WorkflowEnv :=
  { demoEnv with voicesResp := FetchJsonOutcome.resp 200 (Json.obj [("voices", Json.arr [])]) }

/-! ### Shared inversion lemma for the defensive orchestrator -/

/-- Inversion of a successful defensive-orchestrator run: each of the first
three stages succeeded, and the result is assembled from their outputs with
`videoUrl` left `none`. -/
theorem generateVideoContent_ok_inv (env : WorkflowEnv) (st : MediaStore)
    (r : VideoGenerationResult) (h : (generateVideoContent env st).2 = Except.ok r) :
    ∃ script elems imageUrls audioUrl,
      generateScript env.keys env.scriptResp = Except.ok script ∧
      generateScenePrompts env.keys env.sceneResp = Except.ok elems ∧
      processBatchImages env.keys env.image (elems.map toScenePrompt) = Except.ok imageUrls ∧
      r = { script := script, scenePrompts := elems.map toScenePrompt,
            imageUrls := imageUrls, audioUrl := audioUrl, videoUrl := none } := by
  unfold generateVideoContent at h
  cases hs : generateScript env.keys env.scriptResp with
  | error e => rw [hs] at h; simp at h
  | ok script =>
    rw [hs] at h
    dsimp only at h
    cases hp : generateScenePrompts env.keys env.sceneResp with
    | error e => rw [hp] at h; simp at h
    | ok elems =>
      rw [hp] at h
      dsimp only at h
      cases hi : processBatchImages env.keys env.image (elems.map toScenePrompt) with
      | error e => rw [hi] at h; simp at h
      | ok imageUrls =>
        rw [hi] at h
        dsimp only at h
        cases ha : audioStage env script (recordImages
            (addGeneratedFile (setCurrentScript st script)
              { name := "Script " ++ env.dateString, ftype := "script", url := "#",
                content := some script }) imageUrls) with
        | mk st3 res =>
          rw [ha] at h
          cases res with
          | error e => simp at h
          | ok audioUrl =>
            simp at h
            exact ⟨script, elems, imageUrls, audioUrl, rfl, rfl, hi, h.symm⟩

/-- The parsed elements of the array embedded in `demoSceneText`. -/
def demoSceneElems : List Json :=
  [Json.obj [("scene", Json.str "s1"), ("description", Json.str "d1")],
   Json.obj [("scene", Json.str "s2"), ("description", Json.str "d2")]]

/-- The result a fully successful `demoEnv` run returns. -/
def demoResult : VideoGenerationResult :=
  { script := "the script", scenePrompts := demoScenePrompts, imageUrls := demoImageUrls,
    audioUrl := some "blob:audio-bytes", videoUrl := none }

/-- C9: every run of `generateVideoContent` that completes successfully — in
either implementation — returns a `VideoGenerationResult` whose `videoUrl`
is `none`; no code path populates it. -/
theorem C9_videoUrl_always_absent :
    (∀ env st r, (generateVideoContent env st).2 = Except.ok r → r.videoUrl = none) ∧
    (∀ env st r, (generateVideoContentV1 env st).2 = Except.ok r → r.videoUrl = none) := by
  constructor
  · intro env st r h
    obtain ⟨script, elems, imageUrls, audioUrl, _, _, _, hr⟩ :=
      generateVideoContent_ok_inv env st r h
    rw [hr]
  · intro env st r h
    unfold generateVideoContentV1 at h
    cases hs : generateScript env.keys env.scriptResp with
    | error e => rw [hs] at h; simp at h
    | ok script =>
      rw [hs] at h; dsimp only at h
      cases hp : generateScenePromptsV1 env.keys env.sceneResp with
      | error e => rw [hp] at h; simp at h
      | ok elems =>
        rw [hp] at h; dsimp only at h
        cases hi : processBatchImagesV1 env.keys env.image (elems.map toScenePrompt) with
        | error e => rw [hi] at h; simp at h
        | ok imageUrls =>
          rw [hi] at h; dsimp only at h
          cases haud : audioStageV1 env (recordImages
              (addGeneratedFile (setCurrentScript st script)
                { name := "Script " ++ env.dateString, ftype := "script", url := "#",
                  content := some script }) imageUrls) with
          | mk st3 audioUrl =>
            rw [haud] at h; simp at h
            rw [← h]

/-- Witness for C9: a concrete fully successful run of the defensive
orchestrator, whose result indeed has `videoUrl` absent. -/
theorem C9_videoUrl_always_absent_witness :
    (generateVideoContent demoEnv MediaStore.initial).2 = Except.ok demoResult ∧
    demoResult.videoUrl = none :=
  ⟨rfl, C9_videoUrl_always_absent.1 demoEnv MediaStore.initial demoResult rfl⟩

/-- C7: when the Gemini credential resolves to absent, the defensive
orchestrator fails with the script-stage error before any later stage runs,
and the shared media store is returned exactly as it was — no script, scene,
image or audio asset is accumulated. -/
theorem C7_script_key_absent_nothing_accumulated (env : WorkflowEnv) (st : MediaStore)
    (h : getApiKey env.keys "gemini" = "") :
    generateVideoContent env st = (st, Except.error "Gemini API key not found") := by
  unfold generateVideoContent generateScript
  simp [h]

/-- Witness for C7: a store with no Gemini entry fails the run and leaves
the initial media store untouched. -/
theorem C7_script_key_absent_witness :
    getApiKey [(⟨"elevenlabs", "e1"⟩ : ApiKeyEntry), ⟨"huggingface", "h1"⟩] "gemini" = "" ∧
    generateVideoContent { demoEnv with keys := [⟨"elevenlabs", "e1"⟩, ⟨"huggingface", "h1"⟩] }
        MediaStore.initial =
      (MediaStore.initial, Except.error "Gemini API key not found") :=
  ⟨rfl, C7_script_key_absent_nothing_accumulated
    { demoEnv with keys := [⟨"elevenlabs", "e1"⟩, ⟨"huggingface", "h1"⟩] } MediaStore.initial rfl⟩

/-- C1: the two implementations diverge when the audio stage fails after
script, scenes and images succeeded.  On the same environment (voice listing
rejects), the defensive version — which the spec designates authoritative —
rethrows the audio error and returns no result at all, while the earlier
draft returns the accumulated `VideoGenerationResult` with `audioUrl`
absent, as the claim describes. -/
theorem C1_audio_failure_divergence :
    (generateVideoContent demoEnvAudioFail MediaStore.initial).2 =
      Except.error "Failed to fetch" ∧
    (generateVideoContentV1 demoEnvAudioFail MediaStore.initial).2 =
      Except.ok { script := "the script", scenePrompts := demoScenePrompts,
                  imageUrls := demoImageUrls, audioUrl := none, videoUrl := none } :=
  ⟨rfl, rfl⟩

/-- C10: when the voice-listing call succeeds but offers an empty (or
missing) voices list, after the first three stages succeeded, the defensive
orchestrator skips audio synthesis silently and completes successfully with
`audioUrl` null — an empty voice inventory is not an audio-stage failure. -/
theorem C10_empty_voices_skips_audio (env : WorkflowEnv) (st : MediaStore)
    (script : String) (elems : List Json) (imageUrls : List String)
    (vstatus : Nat) (vbody : Json)
    (hs : generateScript env.keys env.scriptResp = Except.ok script)
    (hp : generateScenePrompts env.keys env.sceneResp = Except.ok elems)
    (hi : processBatchImages env.keys env.image (elems.map toScenePrompt) = Except.ok imageUrls)
    (hk : getApiKey env.keys "elevenlabs" ≠ "")
    (hv : env.voicesResp = FetchJsonOutcome.resp vstatus vbody)
    (hok : statusOk vstatus = true)
    (hempty : voicesList vbody = []) :
    (generateVideoContent env st).2 = Except.ok
      { script := script, scenePrompts := elems.map toScenePrompt, imageUrls := imageUrls,
        audioUrl := none, videoUrl := none } := by
  unfold generateVideoContent
  rw [hs]; dsimp only
  rw [hp]; dsimp only
  rw [hi]; dsimp only
  unfold audioStage
  rw [hv]
  simp [hk, hok, hempty]

/-- Witness for C10: a concrete run whose voice listing returns `voices: []`
completes successfully with `audioUrl` absent. -/
theorem C10_empty_voices_witness :
    (generateVideoContent demoEnvNoVoices MediaStore.initial).2 = Except.ok
      { script := "the script", scenePrompts := demoScenePrompts, imageUrls := demoImageUrls,
        audioUrl := none, videoUrl := none } :=
  C10_empty_voices_skips_audio demoEnvNoVoices MediaStore.initial "the script"
    demoSceneElems demoImageUrls 200 (Json.obj [("voices", Json.arr [])])
    rfl rfl rfl (by decide) rfl rfl rfl

/-- C6: the defensive `processBatchImages` checks the image-provider
credential once, before any scene.  With no secret configured it fails
immediately with the credential error, issuing no probe and no per-scene
attempt; with a secret present but rejected by the single `HEAD` probe
(HTTP 401/403) it fails after exactly that one probe and before the
per-scene fallback ladder, again with no per-scene attempt. -/
theorem C6_credential_checked_before_scenes (keys : List ApiKeyEntry) (env : ImageEnv)
    (scenes : List ScenePrompt) :
    (getApiKey keys "huggingface" = "" →
      processBatchImagesRun keys env scenes =
        { probes := 0, attempts := [],
          result := Except.error "Hugging Face API key not found. Please add your API key in the Settings tab." }) ∧
    (∀ status body, getApiKey keys "huggingface" ≠ "" →
      env.probe = HttpBlobOutcome.resp status body →
      (status = 401 ∨ status = 403) →
      processBatchImagesRun keys env scenes =
        { probes := 1, attempts := [],
          result := Except.error "Failed to validate Hugging Face API key. Please check your internet connection and API key." }) := by
  constructor
  · intro h
    unfold processBatchImagesRun
    simp [h]
  · intro status body hk hp hstat
    unfold processBatchImagesRun
    rw [hp]
    rcases hstat with h1 | h1 <;> subst h1 <;> simp [hk]

/-- An image environment whose probe reports 401. -/
def demoProbe401Env : ImageEnv :=
  { probe := HttpBlobOutcome.resp 401 "",
    attempt := fun d m => HttpBlobOutcome.resp 200 ("img-" ++ d ++ "-" ++ m) }

/-- Witness for C6: with no key the batch fails with zero probes and zero
attempts; with a key but a 401 probe it fails after the single probe with
zero attempts. -/
theorem C6_credential_check_witness :
    processBatchImagesRun [] demoEnv.image demoScenePrompts =
      { probes := 0, attempts := [],
        result := Except.error "Hugging Face API key not found. Please add your API key in the Settings tab." } ∧
    processBatchImagesRun demoKeys demoProbe401Env demoScenePrompts =
      { probes := 1, attempts := [],
        result := Except.error "Failed to validate Hugging Face API key. Please check your internet connection and API key." } :=
  ⟨(C6_credential_checked_before_scenes [] demoEnv.image demoScenePrompts).1 rfl,
   (C6_credential_checked_before_scenes demoKeys demoProbe401Env demoScenePrompts).2
     401 "" (by decide) rfl (Or.inl rfl)⟩

/-! ### Lemmas about the fallback ladder and the batch loop -/

/-- When every model in the ladder fails for a description, the ladder
attempts them all, in order, and produces no URL. -/
theorem tryModelsT_all_fail (gen : String → String → Except String Blob) (d : String) :
    ∀ ms : List String, (∀ m ∈ ms, ∃ e, gen d m = Except.error e) →
      tryModelsT gen d ms = (ms.map (fun m => (d, m)), none) := by
  intro ms
  induction ms with
  | nil => intro _; rfl
  | cons m rest ih =>
    intro h
    obtain ⟨e, he⟩ := h m (by simp)
    have hrest := ih (fun q hq => h q (by simp [hq]))
    simp [tryModelsT, he, hrest]

/-- A ladder success comes from some model in the list: the produced URL is
the object URL of a blob that model generated for the description. -/
theorem tryModelsT_ok_inv (gen : String → String → Except String Blob) (d : String) :
    ∀ (ms : List String) (tr : List (String × String)) (url : String),
      tryModelsT gen d ms = (tr, some url) →
      ∃ m ∈ ms, ∃ b, gen d m = Except.ok b ∧ url = createObjectURL b := by
  intro ms
  induction ms with
  | nil => intro tr url h; simp [tryModelsT] at h
  | cons m rest ih =>
    intro tr url h
    unfold tryModelsT at h
    cases hg : gen d m with
    | ok b =>
      rw [hg] at h
      simp at h
      exact ⟨m, by simp, b, hg, h.2.symm⟩
    | error e =>
      rw [hg] at h
      dsimp only at h
      cases ht : tryModelsT gen d rest with
      | mk tr2 r2 =>
        rw [ht] at h
        simp at h
        obtain ⟨m2, hm2, b, hb, hurl⟩ := ih tr2 url (by rw [ht, h.2])
        exact ⟨m2, by simp [hm2], b, hb, hurl⟩

/-- A batch whose scene fails the whole ladder behaves identically whether
or not later scenes follow, provided every earlier scene succeeds: the
failing scene's error is thrown and nothing after it is attempted. -/
theorem batchLoopT_failing_scene (gen : String → String → Except String Blob) (sfx : String)
    (s : ScenePrompt) (hfail : (tryModelsT gen s.description models).2 = none) :
    ∀ pre : List ScenePrompt,
      (∀ p ∈ pre, ((tryModelsT gen p.description models).2).isSome = true) →
      ∀ post, batchLoopT gen sfx (pre ++ s :: post) = batchLoopT gen sfx (pre ++ [s]) := by
  intro pre
  induction pre with
  | nil =>
    intro _ post
    cases htr : tryModelsT gen s.description models with
    | mk tr r =>
      rw [htr] at hfail
      simp at hfail
      subst hfail
      show batchLoopT gen sfx (s :: post) = batchLoopT gen sfx [s]
      unfold batchLoopT
      rw [htr]
  | cons p pre ih =>
    intro hpre post
    have hp := hpre p (by simp)
    have hpre2 : ∀ q ∈ pre, ((tryModelsT gen q.description models).2).isSome = true :=
      fun q hq => hpre q (by simp [hq])
    cases htp : tryModelsT gen p.description models with
    | mk tr r =>
      rw [htp] at hp
      cases r with
      | none => simp at hp
      | some url =>
        show batchLoopT gen sfx (p :: (pre ++ s :: post)) = batchLoopT gen sfx (p :: (pre ++ [s]))
        unfold batchLoopT
        rw [htp, ih hpre2 post]

/-- A batch that ends with a ladder-exhausted scene throws that scene's
error (earlier successes are discarded with the throw). -/
theorem batchLoopT_last_fails (gen : String → String → Except String Blob) (sfx : String)
    (s : ScenePrompt) (hfail : (tryModelsT gen s.description models).2 = none) :
    ∀ pre : List ScenePrompt,
      (∀ p ∈ pre, ((tryModelsT gen p.description models).2).isSome = true) →
      (batchLoopT gen sfx (pre ++ [s])).2 =
        Except.error ("Failed to generate image for scene: " ++ s.scene ++ sfx) := by
  intro pre
  induction pre with
  | nil =>
    intro _
    cases htr : tryModelsT gen s.description models with
    | mk tr r =>
      rw [htr] at hfail
      simp at hfail
      subst hfail
      show (batchLoopT gen sfx [s]).2 = _
      unfold batchLoopT
      rw [htr]
  | cons p pre ih =>
    intro hpre
    have hp := hpre p (by simp)
    have hpre2 : ∀ q ∈ pre, ((tryModelsT gen q.description models).2).isSome = true :=
      fun q hq => hpre q (by simp [hq])
    cases htp : tryModelsT gen p.description models with
    | mk tr r =>
      rw [htp] at hp
      cases r with
      | none => simp at hp
      | some url =>
        show (batchLoopT gen sfx (p :: (pre ++ [s]))).2 = _
        unfold batchLoopT
        rw [htp]
        dsimp only
        cases hb : batchLoopT gen sfx (pre ++ [s]) with
        | mk tr2 res =>
          have h2 := ih hpre2
          rw [hb] at h2
          simp at h2
          rw [h2]
          rfl

/-- A successful batch produced exactly one URL per scene, in order, each
the ladder result of that scene's description. -/
theorem batchLoopT_ok_inv (gen : String → String → Except String Blob) (sfx : String) :
    ∀ (scenes : List ScenePrompt) (tr : List (String × String)) (urls : List String),
      batchLoopT gen sfx scenes = (tr, Except.ok urls) →
      urls.length = scenes.length ∧
      ∀ i (hi : i < scenes.length) (hu : i < urls.length),
        (tryModelsT gen (scenes.get ⟨i, hi⟩).description models).2 =
          some (urls.get ⟨i, hu⟩) := by
  intro scenes
  induction scenes with
  | nil =>
    intro tr urls h
    unfold batchLoopT at h
    simp at h
    obtain ⟨-, h2⟩ := h
    subst h2
    refine ⟨rfl, ?_⟩
    intro i hi
    simp at hi
  | cons s rest ih =>
    intro tr urls h
    unfold batchLoopT at h
    cases htr : tryModelsT gen s.description models with
    | mk tr1 r1 =>
      rw [htr] at h
      cases r1 with
      | none => simp at h
      | some url =>
        dsimp only at h
        cases hb : batchLoopT gen sfx rest with
        | mk tr2 res =>
          rw [hb] at h
          cases res with
          | error e => simp [Except.map] at h
          | ok us =>
            simp [Except.map] at h
            obtain ⟨-, hurls⟩ := h
            subst hurls
            obtain ⟨ihlen, ihidx⟩ := ih tr2 us (by rw [hb])
            constructor
            · simp [ihlen]
            · intro i hi hu
              cases i with
              | zero => simp [htr]
              | succ k =>
                have hk : k < rest.length := Nat.lt_of_succ_lt_succ (by simpa using hi)
                have hk2 : k < us.length := Nat.lt_of_succ_lt_succ (by simpa using hu)
                simpa using ihidx k hk hk2

/-- C2: if one scene fails image synthesis on all three candidate models
(tried in their fixed order, stopping at the first success), the whole batch
fails with the scene-generation error naming that scene.  The run is
identical to the run on the input truncated after the failing scene — later
scenes are never attempted — and the result is the error, not the image
references already produced for earlier scenes. -/
theorem C2_all_models_fail_aborts_batch (keys : List ApiKeyEntry) (env : ImageEnv)
    (pre post : List ScenePrompt) (s : ScenePrompt)
    (hfailAll : ∀ m ∈ models, ∃ e, generateImage keys env s.description m = Except.error e)
    (hpreOk : ∀ p ∈ pre,
      ((tryModelsT (generateImage keys env) p.description models).2).isSome = true) :
    processBatchImagesRun keys env (pre ++ s :: post) =
      processBatchImagesRun keys env (pre ++ [s]) ∧
    (getApiKey keys "huggingface" ≠ "" →
      ∀ status body, env.probe = HttpBlobOutcome.resp status body →
        status ≠ 401 → status ≠ 403 →
        processBatchImages keys env (pre ++ s :: post) =
          Except.error ("Failed to generate image for scene: " ++ s.scene ++
            ". Please check your Hugging Face API key.")) := by
  have hfail : (tryModelsT (generateImage keys env) s.description models).2 = none := by
    rw [tryModelsT_all_fail _ _ models hfailAll]
  constructor
  · unfold processBatchImagesRun
    by_cases hk : getApiKey keys "huggingface" = ""
    · simp [hk]
    · simp only [hk]
      cases hpr : env.probe with
      | networkError => simp
      | resp status body =>
        by_cases hst : (status == 401 || status == 403) = true
        · simp [hst]
        · simp only [Bool.not_eq_true] at hst
          simp [hst, batchLoopT_failing_scene _ _ s hfail pre hpreOk post]
  · intro hk status body hpr h401 h403
    unfold processBatchImages processBatchImagesRun
    rw [hpr]
    rw [if_neg (by simpa using hk)]
    dsimp only
    rw [if_neg (show ¬((status == 401 || status == 403) = true) by simp [h401, h403])]
    rw [batchLoopT_failing_scene _ _ s hfail pre hpreOk post]
    have hlast := batchLoopT_last_fails (generateImage keys env)
      ". Please check your Hugging Face API key." s hfail pre hpreOk
    cases hb2 : batchLoopT (generateImage keys env)
        ". Please check your Hugging Face API key." (pre ++ [s]) with
    | mk tr res =>
      rw [hb2] at hlast
      simpa using hlast

/-- An image environment in which every model fails for description `dB`
and succeeds for every other description. -/
def demoFailSceneEnv : ImageEnv :=
  { probe := HttpBlobOutcome.resp 200 "",
    attempt := fun d m =>
      if d == "dB" then HttpBlobOutcome.resp 500 ""
      else HttpBlobOutcome.resp 200 ("img-" ++ d ++ "-" ++ m) }

/-- Witness for C2: with scenes `[A, B, C]` where `B` fails on every model,
the batch run equals the run on `[A, B]` (scene `C` is never attempted) and
the result is the error naming scene `B`, not a partial image list. -/
theorem C2_all_models_fail_witness :
    processBatchImagesRun demoKeys demoFailSceneEnv
        ([⟨"A", "dA"⟩] ++ (⟨"B", "dB"⟩ : ScenePrompt) :: [⟨"C", "dC"⟩]) =
      processBatchImagesRun demoKeys demoFailSceneEnv ([⟨"A", "dA"⟩] ++ [⟨"B", "dB"⟩]) ∧
    processBatchImages demoKeys demoFailSceneEnv
        ([⟨"A", "dA"⟩] ++ (⟨"B", "dB"⟩ : ScenePrompt) :: [⟨"C", "dC"⟩]) =
      Except.error "Failed to generate image for scene: B. Please check your Hugging Face API key." := by
  have h := C2_all_models_fail_aborts_batch demoKeys demoFailSceneEnv
    [⟨"A", "dA"⟩] [⟨"C", "dC"⟩] ⟨"B", "dB"⟩
    (by intro m hm
        simp [models] at hm
        rcases hm with rfl | rfl | rfl <;> exact ⟨_, rfl⟩)
    (by intro p hp
        simp at hp
        subst hp
        rfl)
  exact ⟨h.1, h.2 (by decide) 200 "" rfl (by decide) (by decide)⟩

/-- C4: a successful `processBatchImages` returns exactly one image
reference per input scene, in order — the i-th URL is the object URL of a
blob generated by some ladder model from the i-th scene's description — and
hence every successful orchestrator run satisfies
`imageUrls.length = scenePrompts.length`. -/
theorem C4_images_index_aligned :
    (∀ (keys : List ApiKeyEntry) (env : ImageEnv) (scenes : List ScenePrompt)
        (urls : List String), processBatchImages keys env scenes = Except.ok urls →
      urls.length = scenes.length ∧
      ∀ i (hi : i < scenes.length) (hu : i < urls.length),
        ∃ m ∈ models, ∃ b,
          generateImage keys env (scenes.get ⟨i, hi⟩).description m = Except.ok b ∧
          urls.get ⟨i, hu⟩ = createObjectURL b) ∧
    (∀ env st r, (generateVideoContent env st).2 = Except.ok r →
      r.imageUrls.length = r.scenePrompts.length) := by
  have main : ∀ (keys : List ApiKeyEntry) (env : ImageEnv) (scenes : List ScenePrompt)
      (urls : List String), processBatchImages keys env scenes = Except.ok urls →
      urls.length = scenes.length ∧
      ∀ i (hi : i < scenes.length) (hu : i < urls.length),
        ∃ m ∈ models, ∃ b,
          generateImage keys env (scenes.get ⟨i, hi⟩).description m = Except.ok b ∧
          urls.get ⟨i, hu⟩ = createObjectURL b := by
    intro keys env scenes urls h
    unfold processBatchImages processBatchImagesRun at h
    by_cases hk : getApiKey keys "huggingface" = ""
    · simp [hk] at h
    · rw [if_neg (by simpa using hk)] at h
      cases hpr : env.probe with
      | networkError => rw [hpr] at h; simp at h
      | resp status body =>
        rw [hpr] at h
        dsimp only at h
        by_cases hst : (status == 401 || status == 403) = true
        · rw [if_pos hst] at h; simp at h
        · rw [if_neg hst] at h
          cases hb : batchLoopT (generateImage keys env)
              ". Please check your Hugging Face API key." scenes with
          | mk tr res =>
            rw [hb] at h
            dsimp only at h
            obtain ⟨hlen, hidx⟩ := batchLoopT_ok_inv _ _ scenes tr urls (by rw [hb, h])
            refine ⟨hlen, ?_⟩
            intro i hi hu
            have h2 := hidx i hi hu
            cases ht : tryModelsT (generateImage keys env)
                ((scenes.get ⟨i, hi⟩).description) models with
            | mk tr3 r3 =>
              rw [ht] at h2
              dsimp only at h2
              subst h2
              exact tryModelsT_ok_inv _ _ models tr3 _ ht
  constructor
  · exact main
  · intro env st r h
    obtain ⟨script, elems, imageUrls, audioUrl, -, -, hi, hr⟩ :=
      generateVideoContent_ok_inv env st r h
    rw [hr]
    simpa using (main env.keys env.image (elems.map toScenePrompt) imageUrls hi).1

/-- Witness for C4: the concrete successful batch over the two demo scenes
returns two URLs, one per scene. -/
theorem C4_images_index_aligned_witness :
    processBatchImages demoKeys demoEnv.image demoScenePrompts = Except.ok demoImageUrls ∧
    demoImageUrls.length = demoScenePrompts.length :=
  ⟨rfl, (C4_images_index_aligned.1 demoKeys demoEnv.image demoScenePrompts demoImageUrls rfl).1⟩

/-! ### Lemmas about the `/\[[\s\S]*\]/` span -/

/-- Searching past a prefix that does not contain the character shifts the
found index by the prefix length. -/
theorem firstIndexOf_append_of_none (l1 l2 : List Char) (c : Char)
    (h : ∀ x ∈ l1, x ≠ c) :
    firstIndexOf (l1 ++ l2) c = (firstIndexOf l2 c).map (fun i => i + l1.length) := by
  induction l1 with
  | nil => cases h3 : firstIndexOf l2 c <;> simp [h3]
  | cons a l ih =>
    have ha : (a == c) = false := by simp [h a (by simp)]
    have h2 : ∀ x ∈ l, x ≠ c := fun x hx => h x (by simp [hx])
    cases h3 : firstIndexOf l2 c with
    | none => simp [firstIndexOf, ha, ih h2, h3]
    | some r =>
      simp [firstIndexOf, ha, ih h2, h3]
      omega

/-- The index of `c` in `l1 ++ c :: rest` when `l1` avoids `c`. -/
theorem firstIndexOf_boundary (l1 rest : List Char) (c : Char) (h : ∀ x ∈ l1, x ≠ c) :
    firstIndexOf (l1 ++ c :: rest) c = some l1.length := by
  rw [firstIndexOf_append_of_none l1 _ c h]
  simp [firstIndexOf]

/-- A list whose `getLast?` is `some a` ends in `a`. -/
theorem eq_append_of_getLast? :
    ∀ (l : List Char) (a : Char), l.getLast? = some a → ∃ l0, l = l0 ++ [a]
  | [], _, h => by simp at h
  | [x], a, h => by
      simp at h
      exact ⟨[], by simp [h]⟩
  | x :: y :: rest, a, h => by
      rw [List.getLast?_cons_cons] at h
      obtain ⟨l0, hl0⟩ := eq_append_of_getLast? (y :: rest) a h
      exact ⟨x :: l0, by simp [hl0]⟩

/-- The `/\[[\s\S]*\]/` span of a text made of an array-shaped payload
surrounded by bracket-free prose is exactly the payload: the last `]` of the
text is the payload's last character and the first `[` before it is the
payload's first character. -/
theorem extractArraySpanL_concat (preL midL postL : List Char)
    (hpre : ∀ c ∈ preL, c ≠ '[' ∧ c ≠ ']')
    (hpost : ∀ c ∈ postL, c ≠ '[' ∧ c ≠ ']')
    (hhead : midL.head? = some '[')
    (hlast : midL.getLast? = some ']') :
    extractArraySpanL (preL ++ midL ++ postL) = some midL := by
  obtain ⟨mid0, rfl⟩ := eq_append_of_getLast? midL ']' hlast
  cases mid0 with
  | nil => exact absurd hhead (by decide)
  | cons c0 mid1 =>
    have hc0 : c0 = '[' := by simpa using hhead
    subst hc0
    -- index of the last ']'
    have hrev : firstIndexOf (preL ++ ('[' :: mid1 ++ [']']) ++ postL).reverse ']'
        = some postL.length := by
      have hshape : (preL ++ ('[' :: mid1 ++ [']']) ++ postL).reverse
          = postL.reverse ++ ']' :: (mid1.reverse ++ '[' :: preL.reverse) := by
        simp
      rw [hshape, firstIndexOf_boundary]
      · simp
      · intro x hx
        exact (hpost x (by simpa using hx)).2
    have hlen : (preL ++ ('[' :: mid1 ++ [']']) ++ postL).length
        = preL.length + mid1.length + 2 + postL.length := by
      simp [List.length_append]
      omega
    have hj : lastIndexOf (preL ++ ('[' :: mid1 ++ [']']) ++ postL) ']'
        = some (preL.length + mid1.length + 1) := by
      unfold lastIndexOf
      rw [hrev]
      dsimp only
      rw [hlen]
      congr 1
      omega
    -- the prefix before the last ']'
    have htake : (preL ++ ('[' :: mid1 ++ [']']) ++ postL).take
        (preL.length + mid1.length + 1) = preL ++ '[' :: mid1 := by
      rw [List.append_assoc, List.take_append_eq_append_take]
      rw [List.take_of_length_le (by omega)]
      congr 1
      have h1 : preL.length + mid1.length + 1 - preL.length = mid1.length + 1 := by omega
      rw [h1]
      show ('[' :: ((mid1 ++ [']']) ++ postL)).take (mid1.length + 1) = '[' :: mid1
      rw [List.take_succ_cons]
      rw [List.append_assoc]
      rw [List.take_append_eq_append_take]
      rw [List.take_of_length_le (by omega)]
      simp
    -- index of the first '[' in that prefix
    have hi : firstIndexOf ((preL ++ ('[' :: mid1 ++ [']']) ++ postL).take
        (preL.length + mid1.length + 1)) '[' = some preL.length := by
      rw [htake]
      exact firstIndexOf_boundary preL mid1 '[' (fun x hx => (hpre x hx).1)
    -- the matched span
    unfold extractArraySpanL
    rw [hj]
    dsimp only
    rw [hi]
    dsimp only
    have hdrop : (preL ++ ('[' :: mid1 ++ [']']) ++ postL).drop preL.length
        = ('[' :: mid1 ++ [']']) ++ postL := by
      rw [List.append_assoc]
      exact List.drop_left preL _
    rw [hdrop]
    have harith : preL.length + mid1.length + 1 - preL.length + 1 = mid1.length + 2 := by omega
    rw [harith]
    rw [List.take_left' (by simp)]

/-- The scene response text of the C3 counterexample: prose, a well-formed
array-shaped payload, then prose that itself contains a bracketed span. -/
def c3Text : String :=
  "Here are the scenes: [\x7b\"scene\":\"s1\",\"description\":\"d1\"\x7d] see [note] for more"

/-- C3 is false as stated: `c3Text` is prose surrounding the well-formed
embedded array payload (second conjunct: the text splits around it; third:
the payload parses to one descriptor), yet the client does not return that
descriptor — the greedy `/\[[\s\S]*\]/` match runs from the first `[` to the
*last* `]` (fourth conjunct, swallowing ` see [note`), the matched span does
not parse, and the call fails with the parse error (fifth conjunct). -/
theorem C3_counterexample :
    c3Text = "Here are the scenes: " ++ "[\x7b\"scene\":\"s1\",\"description\":\"d1\"\x7d]"
      ++ " see [note] for more" ∧
    jsonParse "[\x7b\"scene\":\"s1\",\"description\":\"d1\"\x7d]" =
      some (Json.arr [Json.obj [("scene", Json.str "s1"), ("description", Json.str "d1")]]) ∧
    extractArraySpan c3Text =
      some "[\x7b\"scene\":\"s1\",\"description\":\"d1\"\x7d] see [note]" ∧
    generateScenePrompts demoKeys (FetchJsonOutcome.resp 200 (geminiTextBody c3Text)) =
      Except.error "Failed to parse scene prompts from Gemini response" :=
  ⟨rfl, rfl, rfl, rfl⟩

/-- C3 (amended): the client extracts the span from the first `[` through
the *last* `]` of the response text — not the first well-formed array
substring — and parses that whole span.  First conjunct: when the prose
surrounding an array-shaped payload contains no square brackets, the call
returns exactly the payload's parsed descriptors, ignoring the prose.
Second conjunct: when no span exists or the extracted span does not parse,
the call fails with the parse error. -/
theorem C3_amended_span_parse :
    (∀ (keys : List ApiKeyEntry) (status : Nat) (body : Json)
        (pre mid post : String) (elems : List Json),
      getApiKey keys "gemini" ≠ "" →
      statusOk status = true →
      candidateText body = some (pre ++ mid ++ post) →
      (∀ c ∈ pre.toList, c ≠ '[' ∧ c ≠ ']') →
      (∀ c ∈ post.toList, c ≠ '[' ∧ c ≠ ']') →
      mid.toList.head? = some '[' →
      mid.toList.getLast? = some ']' →
      jsonParse mid = some (Json.arr elems) →
      generateScenePrompts keys (FetchJsonOutcome.resp status body) = Except.ok elems) ∧
    (∀ (keys : List ApiKeyEntry) (status : Nat) (body : Json) (t : String),
      getApiKey keys "gemini" ≠ "" →
      statusOk status = true →
      candidateText body = some t →
      (∀ sp, extractArraySpan t = some sp → jsonParse sp = none) →
      generateScenePrompts keys (FetchJsonOutcome.resp status body) =
        Except.error "Failed to parse scene prompts from Gemini response") := by
  constructor
  · intro keys status body pre mid post elems hk hst hct hpre hpost hhead hlast hparse
    unfold generateScenePrompts
    rw [if_neg (by simpa using hk)]
    dsimp only
    rw [hst]
    rw [if_neg (by simp)]
    rw [hct]
    dsimp only
    unfold parseScenePromptsText
    have hspan : extractArraySpan (pre ++ mid ++ post) = some mid := by
      unfold extractArraySpan
      have hsplit : (pre ++ mid ++ post).toList = pre.toList ++ mid.toList ++ post.toList := rfl
      rw [hsplit, extractArraySpanL_concat _ _ _ hpre hpost hhead hlast]
      rfl
    rw [hspan]
    dsimp only
    rw [hparse]
  · intro keys status body t hk hst hct hnone
    unfold generateScenePrompts
    rw [if_neg (by simpa using hk)]
    dsimp only
    rw [hst]
    rw [if_neg (by simp)]
    rw [hct]
    dsimp only
    unfold parseScenePromptsText
    cases hsp : extractArraySpan t with
    | none => rfl
    | some sp =>
      dsimp only
      rw [hnone sp hsp]

/-- Witness for the amended C3: a concrete response wrapping the payload in
bracket-free prose yields exactly the payload's two descriptors, and a
concrete response with an unparsable span yields the parse error. -/
theorem C3_amended_span_parse_witness :
    generateScenePrompts demoKeys (FetchJsonOutcome.resp 200 (geminiTextBody demoSceneText)) =
      Except.ok demoSceneElems ∧
    generateScenePrompts demoKeys
        (FetchJsonOutcome.resp 200 (geminiTextBody "pick [this or that] please")) =
      Except.error "Failed to parse scene prompts from Gemini response" :=
  ⟨C3_amended_span_parse.1 demoKeys 200 (geminiTextBody demoSceneText)
      "Sure! Here is the JSON:\n"
      "[\x7b\"scene\":\"s1\",\"description\":\"d1\"\x7d,\x7b\"scene\":\"s2\",\"description\":\"d2\"\x7d]"
      "" demoSceneElems (by decide) rfl rfl (by decide) (by decide) rfl rfl rfl,
   C3_amended_span_parse.2 demoKeys 200 (geminiTextBody "pick [this or that] please")
      "pick [this or that] please" (by decide) rfl rfl
      (by intro sp hsp
          have h2 : extractArraySpan "pick [this or that] please" = some "[this or that]" := rfl
          rw [h2] at hsp
          injection hsp with h3
          subst h3
          rfl)⟩

/-- C5 is false as stated: scene decomposition can succeed with a count
other than 3 — the client does not validate the response against the fixed
count it requests.  This well-shaped response carries a two-element array;
the call succeeds and returns both descriptors. -/
theorem C5_counterexample :
    generateScenePrompts demoKeys (FetchJsonOutcome.resp 200 (geminiTextBody demoSceneText)) =
      Except.ok demoSceneElems ∧ demoSceneElems.length = 2 ∧ ¬ (2 = 3) :=
  ⟨rfl, rfl, by decide⟩

/-- C5 (amended): the fixed count 3 lives only in the request text the
client sends (first conjunct: the built request asks to "generate 3
distinct scene descriptions"); the response is not validated against it —
on success the client returns exactly the elements of the array span parsed
out of the response text, whatever their number or shape (second
conjunct). -/
theorem C5_amended_count_unvalidated :
    (∀ p : String, ∃ a b, scenePromptRequest p =
      ("Based on this video idea: \"" ++ p) ++
        (a ++ "generate 3 distinct scene descriptions" ++ b)) ∧
    (∀ (keys : List ApiKeyEntry) (resp : FetchJsonOutcome) (elems : List Json),
      generateScenePrompts keys resp = Except.ok elems →
      ∃ status body t sp, resp = FetchJsonOutcome.resp status body ∧
        candidateText body = some t ∧
        extractArraySpan t = some sp ∧
        jsonParse sp = some (Json.arr elems)) := by
  constructor
  · intro p
    refine ⟨"\", ",
      " for a short video. \n  Format the output as a JSON array with objects that have " ++
        squote ++ "scene" ++ squote ++ " (one-line title) and " ++ squote ++ "description" ++
        squote ++ " (detailed visual description) fields. \n  Make sure the descriptions are detailed enough for image generation.",
      ?_⟩
    unfold scenePromptRequest
    congr 1
  · intro keys resp elems h
    unfold generateScenePrompts at h
    by_cases hk : getApiKey keys "gemini" = ""
    · simp [hk] at h
    · rw [if_neg (by simpa using hk)] at h
      cases resp with
      | networkError => simp at h
      | resp status body =>
        dsimp only at h
        cases hok : statusOk status with
        | false => rw [hok] at h; simp at h
        | true =>
          rw [hok] at h
          rw [if_neg (by simp)] at h
          cases hct : candidateText body with
          | none => rw [hct] at h; simp at h
          | some t =>
            rw [hct] at h
            dsimp only at h
            unfold parseScenePromptsText at h
            cases hsp : extractArraySpan t with
            | none => rw [hsp] at h; simp at h
            | some sp =>
              rw [hsp] at h
              dsimp only at h
              cases hjp : jsonParse sp with
              | none => rw [hjp] at h; simp at h
              | some v =>
                rw [hjp] at h
                cases v with
                | arr es =>
                  simp at h
                  exact ⟨status, body, t, sp, rfl, hct, hsp, by rw [hjp, h]⟩
                | null => simp at h
                | bool b => simp at h
                | num l => simp at h
                | str s => simp at h
                | obj fs => simp at h

/-- Witness for the amended C5: the request built from a concrete prompt
contains the fixed-count instruction, and a concrete success returns
exactly the parsed span's elements. -/
theorem C5_amended_count_unvalidated_witness :
    (∃ a b, scenePromptRequest "idea" =
      ("Based on this video idea: \"" ++ "idea") ++
        (a ++ "generate 3 distinct scene descriptions" ++ b)) ∧
    (∃ status body t sp,
      (FetchJsonOutcome.resp 200 (geminiTextBody demoSceneText) : FetchJsonOutcome) =
        FetchJsonOutcome.resp status body ∧
      candidateText body = some t ∧
      extractArraySpan t = some sp ∧
      jsonParse sp = some (Json.arr demoSceneElems)) :=
  ⟨C5_amended_count_unvalidated.1 "idea",
   C5_amended_count_unvalidated.2 demoKeys
     (FetchJsonOutcome.resp 200 (geminiTextBody demoSceneText)) demoSceneElems rfl⟩

/-! ### Lemmas about the bundle exporter's image entries -/

/-- The names the image loop produces for `n` consecutive images starting at
index `idx`. -/
def sceneNames (idx : Nat) : Nat → List String
  | 0 => []
  | Nat.succ n => ("scene-" ++ toString (idx + 1) ++ ".png") :: sceneNames (idx + 1) n

/-- `sceneNames` written out as a range map. -/
theorem sceneNames_eq_range :
    ∀ (n idx : Nat), sceneNames idx n =
      (List.range n).map (fun i => "scene-" ++ toString (idx + i + 1) ++ ".png") := by
  intro n
  induction n with
  | zero => intro idx; rfl
  | succ n ih =>
    intro idx
    rw [List.range_succ_eq_map]
    simp only [sceneNames, List.map_cons, List.map_map, ih]
    congr 1
    apply List.map_congr_left
    intro i _
    simp only [Function.comp_apply]
    have h2 : idx + 1 + i + 1 = idx + (i + 1) + 1 := by omega
    rw [h2]

/-- With every image fetch succeeding, the exporter produces one
`scene-<position>.png` entry per image, in order. -/
theorem imageEntriesFrom_all_ok (fetchBlob : String → Option Blob) :
    ∀ (urls : List String) (idx : Nat), (∀ u ∈ urls, (fetchBlob u).isSome = true) →
      (imageEntriesFrom fetchBlob idx urls).map Prod.fst = sceneNames idx urls.length := by
  intro urls
  induction urls with
  | nil => intro idx _; rfl
  | cons u rest ih =>
    intro idx h
    have hu := h u (by simp)
    cases hf : fetchBlob u with
    | none => rw [hf] at hu; simp at hu
    | some b =>
      simp only [imageEntriesFrom, hf, List.map_cons, List.length_cons]
      rw [ih (idx + 1) (fun v hv => h v (by simp [hv]))]
      rfl

/-- With exactly one image fetch failing, only that image's entry is
skipped; every other image still gets its position-indexed entry. -/
theorem imageEntriesFrom_one_fail (fetchBlob : String → Option Blob) (u : String)
    (hu : fetchBlob u = none) :
    ∀ (us1 : List String) (idx : Nat) (us2 : List String),
      (∀ v ∈ us1, (fetchBlob v).isSome = true) →
      (∀ v ∈ us2, (fetchBlob v).isSome = true) →
      (imageEntriesFrom fetchBlob idx (us1 ++ u :: us2)).map Prod.fst =
        sceneNames idx us1.length ++ sceneNames (idx + us1.length + 1) us2.length := by
  intro us1
  induction us1 with
  | nil =>
    intro idx us2 _ h2
    simp only [List.nil_append, imageEntriesFrom, hu]
    rw [imageEntriesFrom_all_ok fetchBlob us2 (idx + 1) h2]
    simp [sceneNames]
  | cons v us1 ih =>
    intro idx us2 h1 h2
    have hv := h1 v (by simp)
    cases hf : fetchBlob v with
    | none => rw [hf] at hv; simp at hv
    | some b =>
      simp only [List.cons_append, imageEntriesFrom, hf, List.map_cons, List.length_cons,
        List.append_eq]
      rw [ih (idx + 1) us2 (fun w hw => h1 w (by simp [hw])) h2]
      show _ :: (sceneNames (idx + 1) us1.length ++ sceneNames (idx + 1 + us1.length + 1) us2.length)
          = sceneNames idx (us1.length + 1) ++ sceneNames (idx + (us1.length + 1) + 1) us2.length
      rw [show sceneNames idx (us1.length + 1)
            = ("scene-" ++ toString (idx + 1) ++ ".png") :: sceneNames (idx + 1) us1.length from rfl]
      rw [List.cons_append]
      have h3 : idx + 1 + us1.length + 1 = idx + (us1.length + 1) + 1 := by omega
      rw [h3]

/-- No image entry is named `audio.mp3` (its name starts with `scene-`). -/
theorem sceneName_ne_audio (m : String) : "scene-" ++ m ++ ".png" ≠ "audio.mp3" := by
  intro h
  have h2 : ("scene-" ++ m ++ ".png").toList.head? = ("audio.mp3" : String).toList.head? := by
    rw [h]
  exact absurd (show (some 's' : Option Char) = some 'a' from h2) (by decide)

/-- Every entry the image loop adds is a `scene-<position>.png` blob. -/
theorem imageEntriesFrom_mem_shape (fetchBlob : String → Option Blob) :
    ∀ (urls : List String) (idx : Nat) (x : String × ZipEntry),
      x ∈ imageEntriesFrom fetchBlob idx urls →
      ∃ i b, x = ("scene-" ++ toString (i + 1) ++ ".png", ZipEntry.blob b) := by
  intro urls
  induction urls with
  | nil => intro idx x hx; simp [imageEntriesFrom] at hx
  | cons u rest ih =>
    intro idx x hx
    cases hf : fetchBlob u with
    | none =>
      rw [imageEntriesFrom, hf] at hx
      exact ih (idx + 1) x hx
    | some b =>
      rw [imageEntriesFrom, hf] at hx
      rcases List.mem_cons.mp hx with h1 | h2
      · exact ⟨idx, b, h1⟩
      · exact ih (idx + 1) x h2

/-- C8: for a result with a script, scene descriptors, index-aligned images
and an audio reference, with every asset fetch succeeding, the exported
archive holds exactly `script.txt`, `scene-descriptions.txt` (the scene
blocks in original order), `scene-1.png` … `scene-n.png` (1-indexed by
position) and `audio.mp3` — no extra and no missing entries (first
conjunct).  An absent audio part is silently omitted rather than an error —
the exporter is a total function and simply produces no `audio.mp3` entry
(second conjunct).  A fetch failure for a single image only skips that
image's entry while the archive, with every other entry, is still produced
(third conjunct). -/
theorem C8_bundle_exact_entries (r : VideoGenerationResult)
    (fetchBlob : String → Option Blob) (au : String) :
    (r.script ≠ "" → r.scenePrompts ≠ [] → r.audioUrl = some au →
      (∀ u ∈ r.imageUrls, (fetchBlob u).isSome = true) → (fetchBlob au).isSome = true →
      (handleDownloadAll r fetchBlob).map Prod.fst =
        "script.txt" :: "scene-descriptions.txt" ::
          ((List.range r.imageUrls.length).map (fun i => "scene-" ++ toString (i + 1) ++ ".png")
            ++ ["audio.mp3"]) ∧
      ("scene-descriptions.txt", ZipEntry.text (scenesText r.scenePrompts))
        ∈ handleDownloadAll r fetchBlob) ∧
    (r.audioUrl = none → "audio.mp3" ∉ (handleDownloadAll r fetchBlob).map Prod.fst) ∧
    (∀ us1 u us2, r.script ≠ "" → r.scenePrompts ≠ [] → r.audioUrl = some au →
      r.imageUrls = us1 ++ u :: us2 → fetchBlob u = none →
      (∀ v ∈ us1, (fetchBlob v).isSome = true) → (∀ v ∈ us2, (fetchBlob v).isSome = true) →
      (fetchBlob au).isSome = true →
      (handleDownloadAll r fetchBlob).map Prod.fst =
        "script.txt" :: "scene-descriptions.txt" ::
          ((List.range us1.length).map (fun i => "scene-" ++ toString (i + 1) ++ ".png") ++
           (List.range us2.length).map
             (fun i => "scene-" ++ toString (us1.length + 1 + i + 1) ++ ".png") ++
           ["audio.mp3"])) := by
  refine ⟨?_, ?_, ?_⟩
  · intro hs hp hau hall hfau
    obtain ⟨ab, hab⟩ := Option.isSome_iff_exists.mp hfau
    constructor
    · unfold handleDownloadAll
      rw [if_pos (by simpa using hs), if_pos (List.length_pos.mpr hp), hau]
      dsimp only
      rw [hab]
      simp only [List.map_append, List.map_cons, List.map_nil]
      rw [imageEntriesFrom_all_ok fetchBlob r.imageUrls 0 hall]
      rw [sceneNames_eq_range]
      have hmc : (List.range r.imageUrls.length).map
            (fun i => "scene-" ++ toString (0 + i + 1) ++ ".png")
          = (List.range r.imageUrls.length).map
            (fun i => "scene-" ++ toString (i + 1) ++ ".png") :=
        List.map_congr_left (fun i _ => by rw [Nat.zero_add])
      rw [hmc]
      rfl
    · unfold handleDownloadAll
      rw [if_pos (List.length_pos.mpr hp)]
      simp
  · intro hau hmem
    unfold handleDownloadAll at hmem
    rw [hau] at hmem
    simp only [List.append_nil, List.map_append, List.mem_append] at hmem
    rcases hmem with (h1 | h2) | h3
    · by_cases hc : (r.script != "") = true
      · rw [if_pos hc] at h1
        simp at h1
      · rw [if_neg hc] at h1
        simp at h1
    · by_cases hc : r.scenePrompts.length > 0
      · rw [if_pos hc] at h2
        simp at h2
      · rw [if_neg hc] at h2
        simp at h2
    · rw [List.mem_map] at h3
      obtain ⟨x, hx, hfst⟩ := h3
      obtain ⟨i, bb, hxeq⟩ := imageEntriesFrom_mem_shape fetchBlob r.imageUrls 0 x hx
      rw [hxeq] at hfst
      exact sceneName_ne_audio (toString (i + 1)) hfst
  · intro us1 u us2 hs hp hau hurls hfu h1 h2 hfau
    obtain ⟨ab, hab⟩ := Option.isSome_iff_exists.mp hfau
    unfold handleDownloadAll
    rw [if_pos (by simpa using hs), if_pos (List.length_pos.mpr hp), hau, hurls]
    dsimp only
    rw [hab]
    simp only [List.map_append, List.map_cons, List.map_nil]
    rw [imageEntriesFrom_one_fail fetchBlob u hfu us1 0 us2 h1 h2]
    rw [sceneNames_eq_range, sceneNames_eq_range]
    have hm1 : (List.range us1.length).map (fun i => "scene-" ++ toString (0 + i + 1) ++ ".png")
        = (List.range us1.length).map (fun i => "scene-" ++ toString (i + 1) ++ ".png") :=
      List.map_congr_left (fun i _ => by rw [Nat.zero_add])
    have hm2 : (List.range us2.length).map
          (fun i => "scene-" ++ toString (0 + us1.length + 1 + i + 1) ++ ".png")
        = (List.range us2.length).map
          (fun i => "scene-" ++ toString (us1.length + 1 + i + 1) ++ ".png") :=
      List.map_congr_left (fun i _ => by rw [Nat.zero_add])
    rw [hm1, hm2]
    rfl

/-- Witness for C8 (exact entries): the demo result with every fetch
succeeding produces exactly `script.txt`, `scene-descriptions.txt`,
`scene-1.png`, `scene-2.png`, `audio.mp3`. -/
theorem C8_bundle_exact_entries_witness :
    (handleDownloadAll demoResult (fun u => some ("fetched:" ++ u))).map Prod.fst =
      "script.txt" :: "scene-descriptions.txt" ::
        ((List.range demoResult.imageUrls.length).map
          (fun i => "scene-" ++ toString (i + 1) ++ ".png") ++ ["audio.mp3"]) :=
  ((C8_bundle_exact_entries demoResult (fun u => some ("fetched:" ++ u)) "blob:audio-bytes").1
    (by decide) (by decide) rfl (fun u _ => rfl) rfl).1

end MediaForge
